import Mathlib

/-!
Verification of the stock-screening pipeline: the bulk pre-filter and gem
heuristic (src/data/bulk_fetcher.py), the sector-relative scoring engine
(src/analysis/scoring.py), the technical evaluator (src/analysis/technical.py),
configuration resolution (src/config), and ranking/selection helpers.

Modelling conventions: every numeric value is an exact rational (ℚ); a metric
the data provider may omit is an `Option ℚ`, where `none` stands for an absent
dictionary key or a `None` value.  Python dictionary reads `d.get(k, default)`
become `Option.getD`; a default of `float("inf")` in an upper-bound comparison
is modelled by an `Option` bound where `none` never trips the bound.
-/

namespace StockPick

/-- A bulk-fetched per-ticker record, exactly the keys consumed by
`BulkFetcher._check_filters` and `BulkFetcher._simple_gem_score`. -/
structure StockData where
  sector : Option String := none
  market_cap : Option ℚ := none
  volume : Option ℚ := none
  avg_volume : Option ℚ := none
  pe_ratio : Option ℚ := none
  peg_ratio : Option ℚ := none
  roe : Option ℚ := none
  profit_margin : Option ℚ := none
  operating_margin : Option ℚ := none
  revenue_growth : Option ℚ := none
  earnings_growth : Option ℚ := none
  debt_to_equity : Option ℚ := none
  current_ratio : Option ℚ := none
  deriving DecidableEq

/-- A filter table as read by `_check_filters` through `filters.get(key, default)`;
`none` models an absent key, upon which the code falls back to the per-key
default (0 for minima, `float("inf")` for maxima, 25 for the P/E fallback,
empty lists for the sector lists). -/
structure FilterConfig where
  market_cap_min : Option ℚ := none
  market_cap_max : Option ℚ := none
  volume_min : Option ℚ := none
  peg_ratio_max : Option ℚ := none
  pe_ratio_max_fallback : Option ℚ := none
  pe_ratio_min : Option ℚ := none
  roe_min : Option ℚ := none
  debt_to_equity_max : Option ℚ := none
  revenue_growth_min : Option ℚ := none
  earnings_growth_min : Option ℚ := none
  current_ratio_min : Option ℚ := none
  profit_margin_min : Option ℚ := none
  operating_margin_min : Option ℚ := none
  sectors_exclude : List String := []
  sectors_include : List String := []
  deriving DecidableEq

/-- Python truthiness of an optional number: `None` and `0` are falsy. -/
def truthy : Option ℚ → Bool
  | some x => x != 0
  | none => false

/-- `x is not None and x > 0`. -/
def isPos : Option ℚ → Bool
  | some x => 0 < x
  | none => false

/-- `v > filters.get(key, float("inf"))`: an absent upper bound is never
exceeded. -/
def exceeds (v : ℚ) : Option ℚ → Bool
  | some m => m < v
  | none => false

/-- `x is not None and x < filters.get(key, 0)`: the shared shape of the
P/E-minimum, ROE, growth, current-ratio and margin checks (skip if absent). -/
def belowMin (x? m? : Option ℚ) : Bool :=
  match x? with
  | some x => x < m?.getD 0
  | none => false

/-- `x is not None and x > filters.get(key, float("inf"))` (debt-to-equity). -/
def aboveMax (x? m? : Option ℚ) : Bool :=
  match x? with
  | some x => exceeds x m?
  | none => false

/-- `volume = data.get("avg_volume") or data.get("volume", 0)`: Python `or`
falls through both when the average volume is absent and when it is 0. -/
def volumeUsed (d : StockData) : ℚ :=
  match d.avg_volume with
  | some v => if v = 0 then d.volume.getD 0 else v
  | none => d.volume.getD 0

/-- The PEG/P-E valuation gate of `_check_filters` (the if/elif/elif chain):
the PEG when present and positive, else the PEG computed from P/E and earnings
growth when both are present and positive, else the looser P/E-only fallback
limit, else skipped.  The Python conditions `pe and pe > 0` are mirrored as
`truthy pe && isPos pe`. -/
def valuationGate (d : StockData) (f : FilterConfig) : Option String :=
  if isPos d.peg_ratio then
    if exceeds (d.peg_ratio.getD 0) f.peg_ratio_max then some "peg_too_high" else none
  else if truthy d.pe_ratio && truthy d.earnings_growth
      && isPos d.pe_ratio && isPos d.earnings_growth then
    if exceeds (d.pe_ratio.getD 0 / d.earnings_growth.getD 0) f.peg_ratio_max then
      some "calculated_peg_too_high"
    else none
  else if truthy d.pe_ratio && isPos d.pe_ratio then
    if f.pe_ratio_max_fallback.getD 25 < d.pe_ratio.getD 0 then
      some "pe_too_high_fallback"
    else none
  else none

/-- The checks of `_check_filters` that follow the valuation gate, in source
order. -/
def checkFiltersRest (d : StockData) (f : FilterConfig) : Option String :=
  if belowMin d.pe_ratio f.pe_ratio_min then some "negative_or_low_earnings"
  else if belowMin d.roe f.roe_min then some "roe_too_low"
  else if aboveMax d.debt_to_equity f.debt_to_equity_max then some "debt_too_high"
  else if belowMin d.revenue_growth f.revenue_growth_min then some "revenue_growth_too_low"
  else if belowMin d.earnings_growth f.earnings_growth_min then some "earnings_growth_too_low"
  else if belowMin d.current_ratio f.current_ratio_min then some "current_ratio_too_low"
  else if belowMin d.profit_margin f.profit_margin_min then some "profit_margin_too_low"
  else if belowMin d.operating_margin f.operating_margin_min then some "operating_margin_too_low"
  else if d.sector.getD "" ∈ f.sectors_exclude then
    some ("sector_excluded_" ++ d.sector.getD "")
  else if f.sectors_include ≠ [] ∧ d.sector.getD "" ∉ f.sectors_include then
    some "sector_not_included"
  else none

/-- `BulkFetcher._check_filters`: `none` when the stock passes every filter,
otherwise the reason string of the first failing check. -/
def checkFilters (d : StockData) (f : FilterConfig) : Option String :=
  if d.market_cap.getD 0 < f.market_cap_min.getD 0 then some "market_cap_too_low"
  else if exceeds (d.market_cap.getD 0) f.market_cap_max then some "market_cap_too_high"
  else if volumeUsed d < f.volume_min.getD 0 then some "volume_too_low"
  else
    match valuationGate d f with
    | some r => some r
    | none => checkFiltersRest d f

/-- The twelve pre-filter checks, each producing its categorical failure
reason, listed in the precedence order of the specification (market-cap
window, volume, valuation gate, minimum-profitability P/E, ROE,
debt-to-equity, revenue growth, earnings growth, current ratio, profit
margin, operating margin, sector exclude/include). -/
def bulkChecks : List (StockData → FilterConfig → Option String) :=
  [ fun d f =>
      if d.market_cap.getD 0 < f.market_cap_min.getD 0 then some "market_cap_too_low"
      else if exceeds (d.market_cap.getD 0) f.market_cap_max then some "market_cap_too_high"
      else none
  , fun d f => if volumeUsed d < f.volume_min.getD 0 then some "volume_too_low" else none
  , fun d f => valuationGate d f
  , fun d f => if belowMin d.pe_ratio f.pe_ratio_min then some "negative_or_low_earnings" else none
  , fun d f => if belowMin d.roe f.roe_min then some "roe_too_low" else none
  , fun d f => if aboveMax d.debt_to_equity f.debt_to_equity_max then some "debt_too_high" else none
  , fun d f => if belowMin d.revenue_growth f.revenue_growth_min then some "revenue_growth_too_low" else none
  , fun d f => if belowMin d.earnings_growth f.earnings_growth_min then some "earnings_growth_too_low" else none
  , fun d f => if belowMin d.current_ratio f.current_ratio_min then some "current_ratio_too_low" else none
  , fun d f => if belowMin d.profit_margin f.profit_margin_min then some "profit_margin_too_low" else none
  , fun d f => if belowMin d.operating_margin f.operating_margin_min then some "operating_margin_too_low" else none
  , fun d f =>
      if d.sector.getD "" ∈ f.sectors_exclude then
        some ("sector_excluded_" ++ d.sector.getD "")
      else if f.sectors_include ≠ [] ∧ d.sector.getD "" ∉ f.sectors_include then
        some "sector_not_included"
      else none ]

/-- The failure reason of the first failing check of `bulkChecks` (or `none`
when all twelve pass). -/
def firstFailingCheck (d : StockData) (f : FilterConfig) : Option String :=
  bulkChecks.findSome? (fun c => c d f)

/-- The P/E backup branch of `_simple_gem_score`, used when the PEG ratio is
falsy (absent or 0).  `pe and 0 < pe < 8` is P/E present, nonzero, and in the
band. -/
def peBackupPoints : Option ℚ → ℚ
  | some q =>
      if 0 < q ∧ q < 8 then 3
      else if 8 ≤ q ∧ q < 12 then 2
      else if 12 ≤ q ∧ q < 15 then 1
      else 0
  | none => 0

/-- `BulkFetcher._simple_gem_score`: PEG points (with P/E backup when PEG is
falsy, and no valuation points at all for a truthy non-positive PEG), ROE
points, revenue-growth points, low-debt points, and a small-cap size bonus. -/
def simpleGemScore (d : StockData) : ℚ :=
  (match d.peg_ratio with
   | some p =>
       if 0 < p then
         if p < 0.8 then 4 else if p < 1.2 then 3 else if p < 1.5 then 2
         else if p < 2 then 1 else 0
       else if p = 0 then peBackupPoints d.pe_ratio else 0
   | none => peBackupPoints d.pe_ratio) +
  (match d.roe with
   | some r => if 20 < r then 3 else if 15 < r then 2 else if 10 < r then 1 else 0
   | none => 0) +
  (match d.revenue_growth with
   | some g => if 10 < g then 2 else if 0 < g then 1 else 0
   | none => 0) +
  (match d.debt_to_equity with
   | some de => if de < 0.5 then 2 else if de < 1 then 1 else 0
   | none => 0) +
  (if d.market_cap.getD 0 < 500000000 then 0.5 else 0)

/-- A record with every provider metric absent. -/
def allAbsent : StockData := {}

/-- A filter table that sets only a positive market-cap minimum (the US value). -/
def marketCapOnlyFilters : FilterConfig := { market_cap_min := some 100000000 }

/-- PEG absent, P/E 18, earnings growth 12 (the boundary example of the spec). -/
def pegFallbackData : StockData :=
  { pe_ratio := some 18, earnings_growth := some 12 }

/-- A filter table whose PEG maximum is 2.0 (the shipped value of both markets). -/
def pegMaxTwoFilters : FilterConfig := { peg_ratio_max := some 2 }

/-- A record attaining the maximal gem score: PEG below 0.8, ROE above 20,
revenue growth above 10, debt-to-equity below 0.5, market cap below 500M. -/
def gemMaxData : StockData :=
  { peg_ratio := some 0.5, roe := some 25, revenue_growth := some 15,
    debt_to_equity := some 0.2, market_cap := some 400000000 }

/-- The per-sector weight triple of a sector benchmark
(`SECTOR_BENCHMARKS[s]["weights"]` in src/config/settings.py). -/
structure SectorWeights where
  growth : ℚ
  profitability : ℚ
  valuation : ℚ
  deriving DecidableEq

/-- One entry of `SECTOR_BENCHMARKS` (src/config/settings.py): typical metric
values, a growth-focus flag and the weight triple. -/
structure SectorBenchmark where
  typical_pe : ℚ
  typical_roe : ℚ
  typical_debt_equity : ℚ
  typical_profit_margin : ℚ
  growth_focused : Bool
  weights : SectorWeights
  deriving DecidableEq

/-- The shipped `SECTOR_BENCHMARKS` table of src/config/settings.py, as an
association list keyed by sector name. -/
def SECTOR_BENCHMARKS : List (String × SectorBenchmark) :=
  [ ("Technology",
      { typical_pe := 30, typical_roe := 20, typical_debt_equity := 0.5,
        typical_profit_margin := 20, growth_focused := true,
        weights := ⟨0.40, 0.35, 0.25⟩ })
  , ("Financial Services",
      { typical_pe := 12, typical_roe := 12, typical_debt_equity := 5,
        typical_profit_margin := 25, growth_focused := false,
        weights := ⟨0.20, 0.50, 0.30⟩ })
  , ("Healthcare",
      { typical_pe := 25, typical_roe := 15, typical_debt_equity := 0.8,
        typical_profit_margin := 15, growth_focused := true,
        weights := ⟨0.35, 0.35, 0.30⟩ })
  , ("Consumer Cyclical",
      { typical_pe := 20, typical_roe := 15, typical_debt_equity := 1.2,
        typical_profit_margin := 8, growth_focused := false,
        weights := ⟨0.30, 0.35, 0.35⟩ })
  , ("Consumer Defensive",
      { typical_pe := 22, typical_roe := 18, typical_debt_equity := 1,
        typical_profit_margin := 10, growth_focused := false,
        weights := ⟨0.25, 0.40, 0.35⟩ })
  , ("Industrials",
      { typical_pe := 18, typical_roe := 12, typical_debt_equity := 1.5,
        typical_profit_margin := 8, growth_focused := false,
        weights := ⟨0.30, 0.35, 0.35⟩ })
  , ("Energy",
      { typical_pe := 15, typical_roe := 10, typical_debt_equity := 1,
        typical_profit_margin := 5, growth_focused := false,
        weights := ⟨0.25, 0.35, 0.40⟩ })
  , ("Utilities",
      { typical_pe := 18, typical_roe := 8, typical_debt_equity := 2.5,
        typical_profit_margin := 12, growth_focused := false,
        weights := ⟨0.15, 0.35, 0.50⟩ })
  , ("Real Estate",
      { typical_pe := 30, typical_roe := 6, typical_debt_equity := 3,
        typical_profit_margin := 25, growth_focused := false,
        weights := ⟨0.20, 0.30, 0.50⟩ })
  , ("Communication Services",
      { typical_pe := 20, typical_roe := 12, typical_debt_equity := 1.5,
        typical_profit_margin := 15, growth_focused := true,
        weights := ⟨0.35, 0.35, 0.30⟩ })
  , ("Basic Materials",
      { typical_pe := 15, typical_roe := 10, typical_debt_equity := 1.2,
        typical_profit_margin := 10, growth_focused := false,
        weights := ⟨0.25, 0.35, 0.40⟩ })
  , ("Default",
      { typical_pe := 20, typical_roe := 15, typical_debt_equity := 1,
        typical_profit_margin := 10, growth_focused := false,
        weights := ⟨0.30, 0.35, 0.35⟩ }) ]

/-- `StockScorer._get_sector_benchmark`: the benchmark of the sector, falling
back to the "Default" entry; `none` models the empty-dict result when neither
key exists. -/
def getSectorBenchmark (bm : List (String × SectorBenchmark)) (sector : String) :
    Option SectorBenchmark :=
  match bm.lookup sector with
  | some b => some b
  | none => bm.lookup "Default"

/-- `benchmark.get("typical_pe", 20)`. -/
def typicalPe : Option SectorBenchmark → ℚ
  | some b => b.typical_pe
  | none => 20

/-- `benchmark.get("typical_roe", 15)`. -/
def typicalRoe : Option SectorBenchmark → ℚ
  | some b => b.typical_roe
  | none => 15

/-- `benchmark.get("typical_debt_equity", 1.0)`. -/
def typicalDebtEquity : Option SectorBenchmark → ℚ
  | some b => b.typical_debt_equity
  | none => 1

/-- `benchmark.get("typical_profit_margin", 10)`. -/
def typicalProfitMargin : Option SectorBenchmark → ℚ
  | some b => b.typical_profit_margin
  | none => 10

/-- `benchmark.get("growth_focused", False)`. -/
def growthFocused : Option SectorBenchmark → Bool
  | some b => b.growth_focused
  | none => false

/-- `benchmark.get("weights", {"growth": 0.30, "profitability": 0.35,
"valuation": 0.35})`: the per-key `weights.get(..)` defaults of
`_calculate_composite_score` coincide with this triple. -/
def benchWeights : Option SectorBenchmark → SectorWeights
  | some b => b.weights
  | none => ⟨0.30, 0.35, 0.35⟩

/-- The fundamentals fields consumed by the two sector-relative scorers of
`StockScorer`. -/
structure Fundamentals where
  pe_ratio : Option ℚ := none
  roe : Option ℚ := none
  debt_to_equity : Option ℚ := none
  earnings_growth : Option ℚ := none
  profit_margin : Option ℚ := none
  current_ratio : Option ℚ := none
  deriving DecidableEq

/-- P/E block of `_calculate_valuation_score_sector_relative`, as an
(achieved points, available points) pair; a metric that is absent (or a
non-positive P/E) contributes `(0, 0)`: neither numerator nor denominator. -/
def peValContrib (pe? : Option ℚ) (tp : ℚ) : ℚ × ℚ :=
  match pe? with
  | some pe =>
      if 0 < pe then
        (if pe / tp < 0.8 then 25 else if pe / tp < 1 then 20
         else if pe / tp < 1.2 then 15 else if pe / tp < 1.5 then 10 else 5, 25)
      else (0, 0)
  | none => (0, 0)

/-- ROE block of the sector-relative valuation score (requires `roe >= 0`;
the ratio is forced to 0 when the typical ROE is not positive). -/
def roeValContrib (roe? : Option ℚ) (tr : ℚ) : ℚ × ℚ :=
  match roe? with
  | some roe =>
      if 0 ≤ roe then
        (if 1.5 < (if 0 < tr then roe / tr else 0) then 25
         else if 1.2 < (if 0 < tr then roe / tr else 0) then 20
         else if 0.8 < (if 0 < tr then roe / tr else 0) then 15
         else if 0.5 < (if 0 < tr then roe / tr else 0) then 10 else 5, 25)
      else (0, 0)
  | none => (0, 0)

/-- Debt-to-equity block of the sector-relative valuation score. -/
def deValContrib (de? : Option ℚ) (td : ℚ) : ℚ × ℚ :=
  match de? with
  | some de =>
      (if de < td * 0.5 then 20 else if de < td * 0.8 then 16
       else if de < td * 1.2 then 12 else if de < td * 2 then 8 else 4, 20)
  | none => (0, 0)

/-- Earnings-growth block of the sector-relative valuation score: growth
sectors use steeper bands, value sectors are more lenient. -/
def growthValContrib (eg? : Option ℚ) (gf : Bool) : ℚ × ℚ :=
  match eg? with
  | some eg =>
      (if gf then
         if 20 < eg then 20 else if 15 < eg then 16 else if 10 < eg then 12
         else if 5 < eg then 8 else 4
       else
         if 15 < eg then 20 else if 10 < eg then 16 else if 5 < eg then 14
         else if 0 < eg then 12 else 8, 20)
  | none => (0, 0)

/-- Profit-margin block of the sector-relative valuation score (also skipped
when the typical margin is not positive). -/
def marginValContrib (m? : Option ℚ) (tm : ℚ) : ℚ × ℚ :=
  match m? with
  | some m =>
      if 0 < tm then
        (if 1.5 < m / tm then 10 else if 1 < m / tm then 8
         else if 0.7 < m / tm then 6 else 4, 10)
      else (0, 0)
  | none => (0, 0)

/-- Profit-margin block of `_calculate_quality_score_sector_relative`. -/
def marginQualContrib (m? : Option ℚ) (tm : ℚ) : ℚ × ℚ :=
  match m? with
  | some m =>
      (if tm * 1.3 < m then 30 else if tm < m then 24
       else if tm * 0.7 < m then 18 else if 0 < m then 12 else 6, 30)
  | none => (0, 0)

/-- ROE block of the quality score (note: a present non-positive ROE scores 0
points while still enlarging the budget by 30). -/
def roeQualContrib (roe? : Option ℚ) (tr : ℚ) : ℚ × ℚ :=
  match roe? with
  | some roe =>
      (if tr * 1.5 < roe then 30 else if tr < roe then 24
       else if tr * 0.7 < roe then 18 else if 0 < roe then 12 else 0, 30)
  | none => (0, 0)

/-- Debt-to-equity block of the quality score. -/
def deQualContrib (de? : Option ℚ) (td : ℚ) : ℚ × ℚ :=
  match de? with
  | some de =>
      (if de < td then 20 else if de < td * 1.5 then 16
       else if de < td * 2 then 12 else 8, 20)
  | none => (0, 0)

/-- Current-ratio block of the quality score (requires a present, positive
current ratio). -/
def currentRatioContrib (c? : Option ℚ) : ℚ × ℚ :=
  match c? with
  | some c =>
      if 0 < c then
        (if 2 < c then 20 else if 1.5 < c then 16 else if 1 < c then 12 else 8, 20)
      else (0, 0)
  | none => (0, 0)

/-- The accumulation shared by the sector-relative scorers: total achieved
points over total available points as a percentage, with the explicit neutral
default of 50 when no metric contributed any budget. -/
def pointsPct (cs : List (ℚ × ℚ)) : ℚ :=
  if 0 < (cs.map (·.2)).sum then (cs.map (·.1)).sum / (cs.map (·.2)).sum * 100 else 50

/-- `StockScorer._calculate_valuation_score_sector_relative`. -/
def valuationScoreSR (bm : List (String × SectorBenchmark)) (fd : Fundamentals)
    (sector : String) : ℚ :=
  let b := getSectorBenchmark bm sector
  pointsPct
    [ peValContrib fd.pe_ratio (typicalPe b)
    , roeValContrib fd.roe (typicalRoe b)
    , deValContrib fd.debt_to_equity (typicalDebtEquity b)
    , growthValContrib fd.earnings_growth (growthFocused b)
    , marginValContrib fd.profit_margin (typicalProfitMargin b) ]

/-- `StockScorer._calculate_quality_score_sector_relative`. -/
def qualityScoreSR (bm : List (String × SectorBenchmark)) (fd : Fundamentals)
    (sector : String) : ℚ :=
  let b := getSectorBenchmark bm sector
  pointsPct
    [ marginQualContrib fd.profit_margin (typicalProfitMargin b)
    , roeQualContrib fd.roe (typicalRoe b)
    , deQualContrib fd.debt_to_equity (typicalDebtEquity b)
    , currentRatioContrib fd.current_ratio ]

/-- `StockScorer._calculate_composite_score`: the weighted blend of the three
sub-scores under the sector weight triple (valuation weight on the valuation
score, profitability weight on the quality score, growth weight on the
technical score). -/
def compositeScore (bm : List (String × SectorBenchmark))
    (valuation quality technical : ℚ) (sector : String) : ℚ :=
  let w := benchWeights (getSectorBenchmark bm sector)
  valuation * w.valuation + quality * w.profitability + technical * w.growth

/-- A benchmark table whose weight triple does not sum to 1.0; nothing in the
configuration or scoring path rejects it. -/
def unvalidatedBenchmarks : List (String × SectorBenchmark) :=
  [ ("X", { typical_pe := 20, typical_roe := 15, typical_debt_equity := 1,
            typical_profit_margin := 10, growth_focused := false,
            weights := ⟨0.9, 0.9, 0.9⟩ }) ]

/-- One daily price bar; the field names follow the provider columns. -/
structure Bar where
  Open : ℚ := 0
  High : ℚ := 0
  Low : ℚ := 0
  Close : ℚ := 0
  Volume : ℚ := 0
  deriving DecidableEq

/-- The MACD triple of `TechnicalAnalyzer._calculate_macd`. -/
structure MACDData where
  macd : ℚ
  signal : ℚ
  histogram : ℚ
  deriving DecidableEq

/-- The technical record built by `TechnicalAnalyzer.analyze`.  The timestamp,
the annualized volatility and the trend strength (both defined through a real
square root) and the wall-clock-dependent year-to-date return are outside the
rational model; no stated property reads them. -/
structure Technicals where
  current_price : ℚ := 0
  sma_50 : Option ℚ := none
  sma_200 : Option ℚ := none
  ema_20 : Option ℚ := none
  price_vs_sma50 : Option ℚ := none
  price_vs_sma200 : Option ℚ := none
  rsi : Option ℚ := none
  macd : Option MACDData := none
  atr : Option ℚ := none
  return_1m : Option ℚ := none
  return_3m : Option ℚ := none
  return_6m : Option ℚ := none
  avg_volume : ℚ := 0
  volume_trend : Option String := none
  support : Option ℚ := none
  resistance : Option ℚ := none
  trend : String := "unknown"
  deriving DecidableEq

/-- Closing prices of a price history. -/
def closes (hist : List Bar) : List ℚ := hist.map (·.Close)

/-- Arithmetic mean of a list (0 on the empty list, which no caller reaches). -/
def listMean (l : List ℚ) : ℚ := l.sum / l.length

/-- The trailing `n` entries of a list (`iloc` tail of a rolling window). -/
def lastN (l : List ℚ) (n : Nat) : List ℚ := l.drop (l.length - n)

/-- `_calculate_sma`: mean of the last `period` closes, `None` below `period`
bars. -/
def calculateSma (hist : List Bar) (period : Nat) : Option ℚ :=
  if period ≤ hist.length then some (listMean (lastN (closes hist) period)) else none

/-- The last value of pandas `ewm(span, adjust=False).mean()`: exponential
smoothing seeded by the first value. -/
def ewmLast (l : List ℚ) (alpha : ℚ) : ℚ :=
  match l with
  | [] => 0
  | x :: xs => xs.foldl (fun acc y => alpha * y + (1 - alpha) * acc) x

/-- The full series of pandas `ewm(span, adjust=False).mean()`. -/
def ewmSeries (l : List ℚ) (alpha : ℚ) : List ℚ :=
  match l with
  | [] => []
  | x :: xs => xs.scanl (fun acc y => alpha * y + (1 - alpha) * acc) x

/-- `_calculate_ema` with smoothing factor 2/(span+1). -/
def calculateEma (hist : List Bar) (period : Nat) : Option ℚ :=
  if period ≤ hist.length then
    some (ewmLast (closes hist) (2 / ((period : ℚ) + 1)))
  else none

/-- `_price_vs_ma`: percentage of price over a moving average; `if ma and
ma > 0` (a falsy or non-positive average yields `None`). -/
def priceVsMa (price : ℚ) (ma : Option ℚ) : Option ℚ :=
  match ma with
  | some m => if 0 < m then some ((price - m) / m * 100) else none
  | none => none

/-- Daily deltas (`Close.diff()` without the leading NaN). -/
def deltas (l : List ℚ) : List ℚ := (l.zip l.tail).map fun p => p.2 - p.1

/-- `_calculate_rsi`: Wilder-style RSI over the trailing `period` deltas.
Division by a zero average loss follows the Rat convention (the source's
float arithmetic produces an infinity there); only definedness of the value
enters any stated property. -/
def calculateRsi (hist : List Bar) (period : Nat := 14) : Option ℚ :=
  if hist.length < period + 1 then none
  else
    let ds := deltas (closes hist)
    let avgGain := listMean (lastN (ds.map fun d => if 0 < d then d else 0) period)
    let avgLoss := listMean (lastN (ds.map fun d => if d < 0 then -d else 0) period)
    some (100 - 100 / (1 + avgGain / avgLoss))

/-- `_calculate_macd`: EMA(12) minus EMA(26), its EMA(9) signal, and their
difference. -/
def calculateMacd (hist : List Bar) : Option MACDData :=
  if hist.length < 26 then none
  else
    let c := closes hist
    let macdLine := List.zipWith (· - ·) (ewmSeries c (2 / 13)) (ewmSeries c (2 / 27))
    let signalLine := ewmSeries macdLine (2 / 10)
    some { macd := macdLine.getLastD 0, signal := signalLine.getLastD 0,
           histogram := (List.zipWith (· - ·) macdLine signalLine).getLastD 0 }

/-- True ranges (the first row has no previous close, so its true range is
High - Low, matching the NaN-ignoring pandas maximum). -/
def trueRanges (hist : List Bar) : List ℚ :=
  match hist with
  | [] => []
  | b :: rest =>
      (b.High - b.Low) ::
        (hist.zip rest).map fun p =>
          max (p.2.High - p.2.Low)
            (max (abs (p.2.High - p.1.Close)) (abs (p.2.Low - p.1.Close)))

/-- `_calculate_atr`: mean of the trailing `period` true ranges. -/
def calculateAtr (hist : List Bar) (period : Nat := 14) : Option ℚ :=
  if hist.length < period + 1 then none
  else some (listMean (lastN (trueRanges hist) period))

/-- `_calculate_return`: percentage return over the trailing `days` bars. -/
def calculateReturn (hist : List Bar) (days : Nat) : Option ℚ :=
  if hist.length < days then none
  else
    let c := closes hist
    let past := c.getD (c.length - days) 0
    some ((c.getLastD 0 - past) / past * 100)

/-- `_calculate_volume_trend` over a 20-bar window: recent half-window mean
volume against the prior half-window mean. -/
def calculateVolumeTrend (hist : List Bar) (period : Nat := 20) : Option String :=
  if hist.length < period then none
  else
    let vols := hist.map (·.Volume)
    let recentAvg := listMean (lastN vols (period / 2))
    let olderAvg := listMean ((lastN vols period).take (period / 2))
    if olderAvg * 1.2 < recentAvg then some "increasing"
    else if recentAvg < olderAvg * 0.8 then some "decreasing"
    else some "stable"

/-- `_find_support`: minimum low of the trailing `lookback` bars. -/
def findSupport (hist : List Bar) (lookback : Nat := 50) : Option ℚ :=
  if hist.length < lookback then none
  else some ((((hist.drop (hist.length - lookback)).map (·.Low)).min?).getD 0)

/-- `_find_resistance`: maximum high of the trailing `lookback` bars. -/
def findResistance (hist : List Bar) (lookback : Nat := 50) : Option ℚ :=
  if hist.length < lookback then none
  else some ((((hist.drop (hist.length - lookback)).map (·.High)).max?).getD 0)

/-- The last close (`Close.iloc[-1]`). -/
def currentPrice (hist : List Bar) : ℚ := (closes hist).getLastD 0

/-- `_identify_trend`: the four-way trend classification; `if not sma_50 or
not sma_200` treats an undefined or zero moving average as unknown. -/
def identifyTrend (hist : List Bar) : String :=
  match calculateSma hist 50, calculateSma hist 200 with
  | some s50, some s200 =>
      if s50 = 0 ∨ s200 = 0 then "unknown"
      else if s50 < currentPrice hist ∧ s200 < s50 then "strong_uptrend"
      else if s50 < currentPrice hist then "uptrend"
      else if currentPrice hist < s50 ∧ s50 < s200 then "downtrend"
      else "sideways"
  | _, _ => "unknown"

/-- `TechnicalAnalyzer.analyze` on an already-fetched price history: the
insufficient-data outcome (`None`) below 50 bars, otherwise the technical
record. -/
def analyze (hist : List Bar) : Option Technicals :=
  if hist.isEmpty ∨ hist.length < 50 then none
  else
    some
      { current_price := currentPrice hist
        sma_50 := calculateSma hist 50
        sma_200 := calculateSma hist 200
        ema_20 := calculateEma hist 20
        price_vs_sma50 := priceVsMa (currentPrice hist) (calculateSma hist 50)
        price_vs_sma200 := priceVsMa (currentPrice hist) (calculateSma hist 200)
        rsi := calculateRsi hist
        macd := calculateMacd hist
        atr := calculateAtr hist
        return_1m := calculateReturn hist 21
        return_3m := calculateReturn hist 63
        return_6m := calculateReturn hist 126
        avg_volume := listMean (hist.map (·.Volume))
        volume_trend := calculateVolumeTrend hist
        support := findSupport hist
        resistance := findResistance hist
        trend := identifyTrend hist }

/-- Trend block of `get_technical_score`: always contributes its 30-point
budget. -/
def trendContrib (trend : String) : ℚ × ℚ :=
  (if trend = "strong_uptrend" then 30 else if trend = "uptrend" then 20
   else if trend = "sideways" then 10 else 0, 30)

/-- RSI block of `get_technical_score` (absent RSI contributes no budget). -/
def rsiContrib : Option ℚ → ℚ × ℚ
  | some r =>
      (if 40 ≤ r ∧ r ≤ 60 then 20
       else if (30 ≤ r ∧ r < 40) ∨ (60 < r ∧ r ≤ 70) then 15
       else if r < 30 then 10 else 0, 20)
  | none => (0, 0)

/-- Price-vs-SMA50 block of `get_technical_score`. -/
def priceVsSmaContrib : Option ℚ → ℚ × ℚ
  | some p => (if 5 < p then 25 else if 0 < p then 20 else if -5 < p then 10 else 0, 25)
  | none => (0, 0)

/-- Three-month-return block of `get_technical_score`.  The source reads
`technical.get("return_3m", 0)`, but every record built by `analyze` carries
the key (possibly `None`), so the 0 default is unreachable there and `none`
is skipped by the `is not None` test. -/
def return3mContrib : Option ℚ → ℚ × ℚ
  | some r =>
      (if 20 < r then 25 else if 10 < r then 20 else if 0 < r then 15
       else if -10 < r then 5 else 0, 25)
  | none => (0, 0)

/-- `TechnicalAnalyzer.get_technical_score`: achieved points over available
points as a percentage (the `if not technical` empty-dict guard and the
unreachable zero-budget fallback both return 0, not 50). -/
def technicalScore (t : Technicals) : ℚ :=
  let cs := [trendContrib t.trend, rsiContrib t.rsi,
             priceVsSmaContrib t.price_vs_sma50, return3mContrib t.return_3m]
  if 0 < (cs.map (·.2)).sum then (cs.map (·.1)).sum / (cs.map (·.2)).sum * 100 else 0

/-- A value of a market filter table: a numeric threshold, a string list, or
a boolean flag. -/
inductive FVal where
  | num (q : ℚ)
  | strs (l : List String)
  | flag (b : Bool)
  deriving DecidableEq

/-- `US_FILTERS` (src/config/us_config.py), as an association list in source
order. -/
def US_FILTERS : List (String × FVal) :=
  [ ("market_cap_min", .num 100000000)
  , ("market_cap_max", .num 100000000000)
  , ("volume_min", .num 100000)
  , ("peg_ratio_max", .num 2)
  , ("pe_ratio_max_fallback", .num 25)
  , ("pe_ratio_min", .num 1)
  , ("roe_min", .num 8)
  , ("debt_to_equity_max", .num 2)
  , ("current_ratio_min", .num 0.8)
  , ("profit_margin_min", .num 2)
  , ("revenue_growth_min", .num (-10))
  , ("earnings_growth_min", .num (-10))
  , ("price_above_200ma", .flag false)
  , ("price_above_50ma", .flag false)
  , ("operating_margin_min", .num 5)
  , ("sectors_include", .strs [])
  , ("sectors_exclude", .strs [])
  , ("countries", .strs ["US"]) ]

/-- `INDIA_FILTERS` (src/config/india_config.py), as an association list in
source order. -/
def INDIA_FILTERS : List (String × FVal) :=
  [ ("market_cap_min", .num 500000000)
  , ("market_cap_max", .num 50000000000000)
  , ("volume_min", .num 50000)
  , ("peg_ratio_max", .num 2)
  , ("pe_ratio_max_fallback", .num 30)
  , ("pe_ratio_min", .num 1)
  , ("roe_min", .num 8)
  , ("debt_to_equity_max", .num 3)
  , ("current_ratio_min", .num 0.5)
  , ("profit_margin_min", .num 1)
  , ("revenue_growth_min", .num (-20))
  , ("earnings_growth_min", .num (-20))
  , ("price_above_200ma", .flag false)
  , ("price_above_50ma", .flag false)
  , ("operating_margin_min", .num 3)
  , ("sectors_include", .strs [])
  , ("sectors_exclude", .strs [])
  , ("exchanges", .strs ["NSE", "BSE"])
  , ("indices_to_scan",
      .strs ["NIFTY500", "NIFTY_MIDCAP_100", "NIFTY_SMALLCAP_100", "NIFTY_MIDSMALLCAP_400"]) ]

/-- The Python double-splat merge `{**a, **b}`: the keys of `a` in order with
values overridden by `b` where shared, followed by the keys only in `b`. -/
def mergeDicts (a b : List (String × FVal)) : List (String × FVal) :=
  (a.map fun p =>
    match b.lookup p.1 with
    | some w => (p.1, w)
    | none => p) ++
  b.filter fun p => (a.lookup p.1).isNone

/-- The slice of the `get_market_config` result that the stated properties
read: the filter table and the output file (the data-source, threshold,
market-settings and exchange entries are structured the same way). -/
structure MarketConfig where
  filters : List (String × FVal)
  output_file : String
  deriving DecidableEq

/-- `get_market_config` (src/config/__init__.py): US, INDIA, a merged BOTH,
and a raised `ValueError` for anything else. -/
def getMarketConfig (market : String) : Except String MarketConfig :=
  if market = "US" then .ok ⟨US_FILTERS, "stock_picks_us.csv"⟩
  else if market = "INDIA" then .ok ⟨INDIA_FILTERS, "hidden_gems_india.csv"⟩
  else if market = "BOTH" then
    .ok ⟨mergeDicts US_FILTERS INDIA_FILTERS, "stock_picks_combined.csv"⟩
  else .error ("Unknown market: " ++ market ++ ". Choose US, INDIA, or BOTH")

/-- A scored stock as consumed by `filter_by_action` and `rank_stocks`: its
action tier and its numeric fields as a dictionary. -/
structure ScoredStock where
  action : String
  fields : List (String × ℚ)
  deriving DecidableEq

/-- `stock.get(by, 0)` on a scored stock. -/
def sGet (s : ScoredStock) (key : String) : ℚ := (s.fields.lookup key).getD 0

/-- `StockScorer.filter_by_action`: a falsy action list defaults to
`["STRONG_BUY", "BUY"]`; then a list comprehension keeps records whose action
is in the list. -/
def filterByAction (stocks : List ScoredStock) (actions : List String) :
    List ScoredStock :=
  let acts := if actions.isEmpty then ["STRONG_BUY", "BUY"] else actions
  stocks.filter fun s => s.action ∈ acts

/-- `StockScorer.rank_stocks`: Python `sorted(key=..., reverse=True)` is the
stable descending sort, i.e. a stable merge sort under the total preorder
"key of the left is at least key of the right". -/
def rankStocks (stocks : List ScoredStock) (key : String) : List ScoredStock :=
  stocks.mergeSort fun a b => sGet b key ≤ sGet a key

/-- Sample scored stocks for concrete evaluations. -/
def stockA : ScoredStock := ⟨"BUY", [("composite_score", 70)]⟩

def stockB : ScoredStock := ⟨"AVOID", [("composite_score", 80)]⟩

def stockC : ScoredStock := ⟨"BUY", [("composite_score", 70)]⟩

/-- A well-formed (points, budget) contribution: nonnegative points within a
nonnegative budget. -/
def ContribOK (c : ℚ × ℚ) : Prop := 0 ≤ c.1 ∧ c.1 ≤ c.2 ∧ 0 ≤ c.2

/-- A well-formed sector weight triple: nonnegative components summing to 1. -/
def WeightsOK (w : SectorWeights) : Prop :=
  0 ≤ w.growth ∧ 0 ≤ w.profitability ∧ 0 ≤ w.valuation ∧
  w.growth + w.profitability + w.valuation = 1

/-- A fundamentals record with every metric absent. -/
def allAbsentFund : Fundamentals := {}

/-- C1: for every stock record and filter configuration, the bulk pre-filter
passes exactly when all twelve checks pass, and otherwise reports the failure
reason of the first failing check in the fixed precedence order (market cap
low/high, volume, valuation gate, minimum-profitability P/E, ROE,
debt-to-equity, revenue growth, earnings growth, current ratio, profit margin,
operating margin, sector exclude/include). -/
theorem checkFilters_eq_firstFailingCheck (d : StockData) (f : FilterConfig) :
    checkFilters d f = firstFailingCheck d f ∧
    (checkFilters d f = none ↔ ∀ c ∈ bulkChecks, c d f = none) := by
  have main : checkFilters d f = firstFailingCheck d f := by
    unfold checkFilters firstFailingCheck bulkChecks checkFiltersRest
    simp only [List.findSome?_cons, List.findSome?_nil]
    by_cases h1 : d.market_cap.getD 0 < f.market_cap_min.getD 0
    · simp only [if_pos h1]
    simp only [if_neg h1]
    by_cases h2 : exceeds (d.market_cap.getD 0) f.market_cap_max = true
    · simp only [if_pos h2]
    simp only [if_neg h2]
    by_cases h3 : volumeUsed d < f.volume_min.getD 0
    · simp only [if_pos h3]
    simp only [if_neg h3]
    cases hv : valuationGate d f with
    | some r => rfl
    | none =>
      simp only []
      by_cases h4 : belowMin d.pe_ratio f.pe_ratio_min = true
      · simp only [if_pos h4]
      simp only [if_neg h4]
      by_cases h5 : belowMin d.roe f.roe_min = true
      · simp only [if_pos h5]
      simp only [if_neg h5]
      by_cases h6 : aboveMax d.debt_to_equity f.debt_to_equity_max = true
      · simp only [if_pos h6]
      simp only [if_neg h6]
      by_cases h7 : belowMin d.revenue_growth f.revenue_growth_min = true
      · simp only [if_pos h7]
      simp only [if_neg h7]
      by_cases h8 : belowMin d.earnings_growth f.earnings_growth_min = true
      · simp only [if_pos h8]
      simp only [if_neg h8]
      by_cases h9 : belowMin d.current_ratio f.current_ratio_min = true
      · simp only [if_pos h9]
      simp only [if_neg h9]
      by_cases h10 : belowMin d.profit_margin f.profit_margin_min = true
      · simp only [if_pos h10]
      simp only [if_neg h10]
      by_cases h11 : belowMin d.operating_margin f.operating_margin_min = true
      · simp only [if_pos h11]
      simp only [if_neg h11]
      by_cases h12 : d.sector.getD "" ∈ f.sectors_exclude
      · simp only [if_pos h12]
      simp only [if_neg h12]
      by_cases h13 : f.sectors_include ≠ [] ∧ d.sector.getD "" ∉ f.sectors_include
      · simp only [if_pos h13]
      simp only [if_neg h13]
  refine ⟨main, main ▸ ?_⟩
  unfold firstFailingCheck
  exact List.findSome?_eq_none_iff

/-- C3 counterexample: under a configuration with a positive market-cap
minimum (the shipped US value), a record with every metric absent is rejected
with reason market_cap_too_low, because an absent market cap is read as 0.
So a missing metric can cause a pre-filter check to fail, and an all-absent
stock does not always pass. -/
theorem allAbsent_fails_marketCapMin :
    checkFilters allAbsent marketCapOnlyFilters = some "market_cap_too_low" := by
  decide

/-- C3 (amended): a missing metric never fails the valuation gate or the
P/E-minimum, ROE, debt-to-equity, growth, current-ratio, margin or
sector-exclude checks, but an absent market cap and volume are read as 0 and
an absent sector as the empty string; hence a stock with every optional field
absent passes the pre-filter exactly under configurations whose market-cap
and volume minima are at most 0, whose market-cap maximum (when set) is at
least 0, which do not exclude the empty sector name, and whose include-list
is empty or contains the empty sector name. -/
theorem allAbsent_passes_iff (f : FilterConfig) :
    checkFilters allAbsent f = none ↔
      f.market_cap_min.getD 0 ≤ 0 ∧ (∀ m ∈ f.market_cap_max, (0 : ℚ) ≤ m) ∧
      f.volume_min.getD 0 ≤ 0 ∧ "" ∉ f.sectors_exclude ∧
      (f.sectors_include = [] ∨ "" ∈ f.sectors_include) := by
  have hred : checkFilters allAbsent f =
      (if (0 : ℚ) < f.market_cap_min.getD 0 then some "market_cap_too_low"
       else if exceeds 0 f.market_cap_max then some "market_cap_too_high"
       else if (0 : ℚ) < f.volume_min.getD 0 then some "volume_too_low"
       else if "" ∈ f.sectors_exclude then some ("sector_excluded_" ++ "")
       else if f.sectors_include ≠ [] ∧ "" ∉ f.sectors_include then
         some "sector_not_included"
       else none) := rfl
  rw [hred]
  constructor
  · intro h
    split_ifs at h with h1 h2 h3 h4 h5
    push_neg at h5
    refine ⟨not_lt.mp h1, ?_, not_lt.mp h3, h4, ?_⟩
    · intro m hm
      rw [Option.mem_def] at hm
      rw [hm] at h2
      simpa [exceeds] using h2
    · by_cases hi : f.sectors_include = []
      · exact Or.inl hi
      · exact Or.inr (h5 hi)
  · rintro ⟨hc1, hc2, hc3, hc4, hc5⟩
    have g2 : ¬(exceeds 0 f.market_cap_max = true) := by
      cases hm : f.market_cap_max with
      | none => simp [exceeds]
      | some m =>
          have := hc2 m (by rw [hm]; rfl)
          simp [exceeds, not_lt.mpr this]
    rw [if_neg (not_lt.mpr hc1), if_neg g2, if_neg (not_lt.mpr hc3), if_neg hc4,
      if_neg ?_]
    rcases hc5 with hc5 | hc5
    · simp [hc5]
    · simp [hc5]

/-- C3 witness instance: the fully-default configuration satisfies the
amended conditions and the all-absent record passes under it. -/
theorem allAbsent_passes_iff_witness : checkFilters allAbsent {} = none := by
  refine (allAbsent_passes_iff {}).mpr ⟨?_, ?_, ?_, ?_, ?_⟩
  · decide
  · intro m hm
    simp at hm
  · decide
  · decide
  · exact Or.inl rfl

/-- C4: when the PEG ratio is absent but P/E and earnings growth are present
and positive, the valuation gate evaluates the computed PEG (P/E divided by
the growth percentage) against peg_ratio_max, and never reaches the looser
P/E-only fallback. -/
theorem valuationGate_uses_computed_peg (d : StockData) (f : FilterConfig)
    (p g : ℚ) (hpeg : d.peg_ratio = none) (hpe : d.pe_ratio = some p)
    (hp : 0 < p) (heg : d.earnings_growth = some g) (hg : 0 < g) :
    valuationGate d f =
      if exceeds (p / g) f.peg_ratio_max then some "calculated_peg_too_high"
      else none := by
  have hc : (truthy d.pe_ratio && truthy d.earnings_growth
      && isPos d.pe_ratio && isPos d.earnings_growth) = true := by
    simp only [hpe, heg, truthy, isPos, Bool.and_eq_true, decide_eq_true_eq, bne_iff_ne]
    exact ⟨⟨⟨ne_of_gt hp, ne_of_gt hg⟩, hp⟩, hg⟩
  unfold valuationGate
  rw [hpeg]
  rw [if_neg (by simp [isPos]), if_pos hc, hpe, heg]
  rfl

/-- C4 witness: with PEG absent, P/E 18 and earnings growth 12, the gate
evaluates the computed PEG 1.5 against the shipped maximum 2.0 and passes
(it does not fall through to the P/E-only fallback, whose limit it would
also pass, nor report any fallback reason). -/
theorem valuationGate_uses_computed_peg_witness :
    valuationGate pegFallbackData pegMaxTwoFilters = none := by
  have h := valuationGate_uses_computed_peg pegFallbackData pegMaxTwoFilters
    18 12 rfl rfl (by norm_num) rfl (by norm_num)
  rw [h]
  norm_num [exceeds, pegMaxTwoFilters]

/-- C10: the claim bounds the gem score by 10, but the achievable maximum of
`_simple_gem_score` is 11.5 (4 PEG points + 3 ROE points + 2 growth points +
2 low-debt points + 0.5 small-cap bonus), exceeding both the claimed range
and the docstring of the source.  The exhibited record reaches 11.5. -/
theorem simpleGemScore_exceeds_ten :
    simpleGemScore gemMaxData = 23 / 2 ∧ 10 < simpleGemScore gemMaxData := by
  constructor <;> norm_num [simpleGemScore, gemMaxData, peBackupPoints]

lemma peValContrib_ok (x : Option ℚ) (t : ℚ) : ContribOK (peValContrib x t) := by
  cases x with
  | none => exact ⟨le_refl 0, le_refl 0, le_refl 0⟩
  | some pe =>
      simp only [peValContrib, ContribOK]
      split_ifs <;> norm_num

lemma roeValContrib_ok (x : Option ℚ) (t : ℚ) : ContribOK (roeValContrib x t) := by
  cases x with
  | none => exact ⟨le_refl 0, le_refl 0, le_refl 0⟩
  | some r =>
      simp only [roeValContrib, ContribOK]
      split_ifs <;> norm_num

lemma deValContrib_ok (x : Option ℚ) (t : ℚ) : ContribOK (deValContrib x t) := by
  cases x with
  | none => exact ⟨le_refl 0, le_refl 0, le_refl 0⟩
  | some de =>
      simp only [deValContrib, ContribOK]
      split_ifs <;> norm_num

lemma growthValContrib_ok (x : Option ℚ) (gf : Bool) : ContribOK (growthValContrib x gf) := by
  cases x with
  | none => exact ⟨le_refl 0, le_refl 0, le_refl 0⟩
  | some eg =>
      simp only [growthValContrib, ContribOK]
      split_ifs <;> norm_num

lemma marginValContrib_ok (x : Option ℚ) (t : ℚ) : ContribOK (marginValContrib x t) := by
  cases x with
  | none => exact ⟨le_refl 0, le_refl 0, le_refl 0⟩
  | some m =>
      simp only [marginValContrib, ContribOK]
      split_ifs <;> norm_num

lemma marginQualContrib_ok (x : Option ℚ) (t : ℚ) : ContribOK (marginQualContrib x t) := by
  cases x with
  | none => exact ⟨le_refl 0, le_refl 0, le_refl 0⟩
  | some m =>
      simp only [marginQualContrib, ContribOK]
      split_ifs <;> norm_num

lemma roeQualContrib_ok (x : Option ℚ) (t : ℚ) : ContribOK (roeQualContrib x t) := by
  cases x with
  | none => exact ⟨le_refl 0, le_refl 0, le_refl 0⟩
  | some r =>
      simp only [roeQualContrib, ContribOK]
      split_ifs <;> norm_num

lemma deQualContrib_ok (x : Option ℚ) (t : ℚ) : ContribOK (deQualContrib x t) := by
  cases x with
  | none => exact ⟨le_refl 0, le_refl 0, le_refl 0⟩
  | some de =>
      simp only [deQualContrib, ContribOK]
      split_ifs <;> norm_num

lemma currentRatioContrib_ok (x : Option ℚ) : ContribOK (currentRatioContrib x) := by
  cases x with
  | none => exact ⟨le_refl 0, le_refl 0, le_refl 0⟩
  | some c =>
      simp only [currentRatioContrib, ContribOK]
      split_ifs <;> norm_num

lemma ratioBlock_bounds {s m d : ℚ} (hs : 0 ≤ s) (hle : s ≤ m)
    (hd0 : 0 ≤ d) (hd1 : d ≤ 100) :
    0 ≤ (if 0 < m then s / m * 100 else d) ∧ (if 0 < m then s / m * 100 else d) ≤ 100 := by
  split_ifs with hm
  · constructor
    · exact mul_nonneg (div_nonneg hs hm.le) (by norm_num)
    · calc s / m * 100 ≤ 1 * 100 :=
          mul_le_mul_of_nonneg_right ((div_le_one hm).mpr hle) (by norm_num)
        _ = 100 := one_mul 100
  · exact ⟨hd0, hd1⟩

lemma pointsPct_bounds (cs : List (ℚ × ℚ)) (h : ∀ c ∈ cs, ContribOK c) :
    0 ≤ pointsPct cs ∧ pointsPct cs ≤ 100 := by
  unfold pointsPct
  refine ratioBlock_bounds ?_ ?_ (by norm_num) (by norm_num)
  · refine List.sum_nonneg ?_
    intro x hx
    obtain ⟨c, hc, rfl⟩ := List.mem_map.mp hx
    exact (h c hc).1
  · exact List.sum_le_sum fun c hc => (h c hc).2.1

lemma valuationScoreSR_bounds (bm : List (String × SectorBenchmark))
    (fd : Fundamentals) (sector : String) :
    0 ≤ valuationScoreSR bm fd sector ∧ valuationScoreSR bm fd sector ≤ 100 := by
  unfold valuationScoreSR
  refine pointsPct_bounds _ ?_
  intro c hc
  simp only [List.mem_cons, List.not_mem_nil, or_false] at hc
  rcases hc with rfl | rfl | rfl | rfl | rfl
  · exact peValContrib_ok _ _
  · exact roeValContrib_ok _ _
  · exact deValContrib_ok _ _
  · exact growthValContrib_ok _ _
  · exact marginValContrib_ok _ _

lemma qualityScoreSR_bounds (bm : List (String × SectorBenchmark))
    (fd : Fundamentals) (sector : String) :
    0 ≤ qualityScoreSR bm fd sector ∧ qualityScoreSR bm fd sector ≤ 100 := by
  unfold qualityScoreSR
  refine pointsPct_bounds _ ?_
  intro c hc
  simp only [List.mem_cons, List.not_mem_nil, or_false] at hc
  rcases hc with rfl | rfl | rfl | rfl
  · exact marginQualContrib_ok _ _
  · exact roeQualContrib_ok _ _
  · exact deQualContrib_ok _ _
  · exact currentRatioContrib_ok _

lemma trendContrib_ok (s : String) : ContribOK (trendContrib s) := by
  simp only [trendContrib, ContribOK]
  split_ifs <;> norm_num

lemma rsiContrib_ok (x : Option ℚ) : ContribOK (rsiContrib x) := by
  cases x with
  | none => exact ⟨le_refl 0, le_refl 0, le_refl 0⟩
  | some r =>
      simp only [rsiContrib, ContribOK]
      split_ifs <;> norm_num

lemma priceVsSmaContrib_ok (x : Option ℚ) : ContribOK (priceVsSmaContrib x) := by
  cases x with
  | none => exact ⟨le_refl 0, le_refl 0, le_refl 0⟩
  | some p =>
      simp only [priceVsSmaContrib, ContribOK]
      split_ifs <;> norm_num

lemma return3mContrib_ok (x : Option ℚ) : ContribOK (return3mContrib x) := by
  cases x with
  | none => exact ⟨le_refl 0, le_refl 0, le_refl 0⟩
  | some r =>
      simp only [return3mContrib, ContribOK]
      split_ifs <;> norm_num

lemma technicalScore_bounds (t : Technicals) :
    0 ≤ technicalScore t ∧ technicalScore t ≤ 100 := by
  unfold technicalScore
  refine ratioBlock_bounds ?_ ?_ (le_refl 0) (by norm_num)
  · refine List.sum_nonneg ?_
    intro x hx
    obtain ⟨c, hc, rfl⟩ := List.mem_map.mp hx
    simp only [List.mem_cons, List.not_mem_nil, or_false] at hc
    rcases hc with rfl | rfl | rfl | rfl
    · exact (trendContrib_ok _).1
    · exact (rsiContrib_ok _).1
    · exact (priceVsSmaContrib_ok _).1
    · exact (return3mContrib_ok _).1
  · refine List.sum_le_sum ?_
    intro c hc
    simp only [List.mem_cons, List.not_mem_nil, or_false] at hc
    rcases hc with rfl | rfl | rfl | rfl
    · exact (trendContrib_ok _).2.1
    · exact (rsiContrib_ok _).2.1
    · exact (priceVsSmaContrib_ok _).2.1
    · exact (return3mContrib_ok _).2.1

lemma mem_of_lookup_eq_some {l : List (String × SectorBenchmark)} {k : String}
    {b : SectorBenchmark} (h : l.lookup k = some b) : (k, b) ∈ l := by
  obtain ⟨l₁, l₂, rfl, -⟩ := List.lookup_eq_some_iff.mp h
  exact List.mem_append_right _ (List.mem_cons_self _ _)

lemma shipped_weightsOK : ∀ p ∈ SECTOR_BENCHMARKS, WeightsOK p.2.weights := by
  intro p hp
  simp only [SECTOR_BENCHMARKS, List.mem_cons, List.not_mem_nil, or_false] at hp
  rcases hp with rfl | rfl | rfl | rfl | rfl | rfl | rfl | rfl | rfl | rfl | rfl | rfl <;>
    exact ⟨by norm_num, by norm_num, by norm_num, by norm_num⟩

lemma benchWeights_weightsOK (sector : String) :
    WeightsOK (benchWeights (getSectorBenchmark SECTOR_BENCHMARKS sector)) := by
  unfold getSectorBenchmark
  cases h : SECTOR_BENCHMARKS.lookup sector with
  | some b => exact shipped_weightsOK _ (mem_of_lookup_eq_some h)
  | none =>
      cases hd : SECTOR_BENCHMARKS.lookup "Default" with
      | some b => exact shipped_weightsOK _ (mem_of_lookup_eq_some hd)
      | none =>
          exact ⟨by norm_num [benchWeights], by norm_num [benchWeights],
            by norm_num [benchWeights], by norm_num [benchWeights]⟩

lemma convex_min_max {v q t : ℚ} {w : SectorWeights} (hw : WeightsOK w) :
    min v (min q t) ≤ v * w.valuation + q * w.profitability + t * w.growth ∧
    v * w.valuation + q * w.profitability + t * w.growth ≤ max v (max q t) := by
  obtain ⟨hg, hp, hv, hsum⟩ := hw
  have minv : min v (min q t) ≤ v := min_le_left _ _
  have minq : min v (min q t) ≤ q := le_trans (min_le_right _ _) (min_le_left _ _)
  have mint : min v (min q t) ≤ t := le_trans (min_le_right _ _) (min_le_right _ _)
  have maxv : v ≤ max v (max q t) := le_max_left _ _
  have maxq : q ≤ max v (max q t) := le_trans (le_max_left _ _) (le_max_right _ _)
  have maxt : t ≤ max v (max q t) := le_trans (le_max_right _ _) (le_max_right _ _)
  have emin : min v (min q t) * w.valuation + min v (min q t) * w.profitability +
      min v (min q t) * w.growth = min v (min q t) := by
    calc min v (min q t) * w.valuation + min v (min q t) * w.profitability +
        min v (min q t) * w.growth
        = min v (min q t) * (w.growth + w.profitability + w.valuation) := by ring
      _ = min v (min q t) := by rw [hsum, mul_one]
  have emax : max v (max q t) * w.valuation + max v (max q t) * w.profitability +
      max v (max q t) * w.growth = max v (max q t) := by
    calc max v (max q t) * w.valuation + max v (max q t) * w.profitability +
        max v (max q t) * w.growth
        = max v (max q t) * (w.growth + w.profitability + w.valuation) := by ring
      _ = max v (max q t) := by rw [hsum, mul_one]
  constructor
  · linarith [mul_le_mul_of_nonneg_right minv hv, mul_le_mul_of_nonneg_right minq hp,
      mul_le_mul_of_nonneg_right mint hg, emin]
  · linarith [mul_le_mul_of_nonneg_right maxv hv, mul_le_mul_of_nonneg_right maxq hp,
      mul_le_mul_of_nonneg_right maxt hg, emax]

/-- C2: for every fundamentals and technicals input, the valuation, quality
and technical sub-scores lie in [0,100]; the composite equals valuation times
the sector valuation weight plus quality times the profitability weight plus
technical times the growth weight; and (the shipped weight triples being
convex) the composite lies between the minimum and maximum sub-score. -/
theorem composite_convex_combination (fd : Fundamentals) (t : Technicals) (sector : String) :
    (0 ≤ valuationScoreSR SECTOR_BENCHMARKS fd sector ∧
      valuationScoreSR SECTOR_BENCHMARKS fd sector ≤ 100) ∧
    (0 ≤ qualityScoreSR SECTOR_BENCHMARKS fd sector ∧
      qualityScoreSR SECTOR_BENCHMARKS fd sector ≤ 100) ∧
    (0 ≤ technicalScore t ∧ technicalScore t ≤ 100) ∧
    compositeScore SECTOR_BENCHMARKS (valuationScoreSR SECTOR_BENCHMARKS fd sector)
        (qualityScoreSR SECTOR_BENCHMARKS fd sector) (technicalScore t) sector =
      valuationScoreSR SECTOR_BENCHMARKS fd sector *
          (benchWeights (getSectorBenchmark SECTOR_BENCHMARKS sector)).valuation +
        qualityScoreSR SECTOR_BENCHMARKS fd sector *
          (benchWeights (getSectorBenchmark SECTOR_BENCHMARKS sector)).profitability +
        technicalScore t *
          (benchWeights (getSectorBenchmark SECTOR_BENCHMARKS sector)).growth ∧
    min (valuationScoreSR SECTOR_BENCHMARKS fd sector)
        (min (qualityScoreSR SECTOR_BENCHMARKS fd sector) (technicalScore t)) ≤
      compositeScore SECTOR_BENCHMARKS (valuationScoreSR SECTOR_BENCHMARKS fd sector)
        (qualityScoreSR SECTOR_BENCHMARKS fd sector) (technicalScore t) sector ∧
    compositeScore SECTOR_BENCHMARKS (valuationScoreSR SECTOR_BENCHMARKS fd sector)
        (qualityScoreSR SECTOR_BENCHMARKS fd sector) (technicalScore t) sector ≤
      max (valuationScoreSR SECTOR_BENCHMARKS fd sector)
        (max (qualityScoreSR SECTOR_BENCHMARKS fd sector) (technicalScore t)) := by
  refine ⟨valuationScoreSR_bounds _ _ _, qualityScoreSR_bounds _ _ _,
    technicalScore_bounds _, rfl, ?_, ?_⟩
  · exact (convex_min_max (benchWeights_weightsOK sector)).1
  · exact (convex_min_max (benchWeights_weightsOK sector)).2

/-- C5: in the sector-relative valuation and quality scorers an absent metric
contributes neither achieved nor available points (each absent contribution is
(0, 0)), and a fundamentals record whose metrics are all absent scores exactly
the neutral default 50 on both sub-scores. -/
theorem absent_metrics_excluded_neutral_default
    (bm : List (String × SectorBenchmark)) (sector : String) (fd : Fundamentals)
    (tp tr td tm : ℚ) (gf : Bool)
    (h1 : fd.pe_ratio = none) (h2 : fd.roe = none) (h3 : fd.debt_to_equity = none)
    (h4 : fd.earnings_growth = none) (h5 : fd.profit_margin = none)
    (h6 : fd.current_ratio = none) :
    peValContrib none tp = (0, 0) ∧ roeValContrib none tr = (0, 0) ∧
    deValContrib none td = (0, 0) ∧ growthValContrib none gf = (0, 0) ∧
    marginValContrib none tm = (0, 0) ∧ marginQualContrib none tm = (0, 0) ∧
    roeQualContrib none tr = (0, 0) ∧ deQualContrib none td = (0, 0) ∧
    currentRatioContrib none = (0, 0) ∧
    valuationScoreSR bm fd sector = 50 ∧ qualityScoreSR bm fd sector = 50 := by
  refine ⟨rfl, rfl, rfl, rfl, rfl, rfl, rfl, rfl, rfl, ?_, ?_⟩
  · unfold valuationScoreSR pointsPct
    rw [h1, h2, h3, h4, h5]
    norm_num [peValContrib, roeValContrib, deValContrib, growthValContrib, marginValContrib]
  · unfold qualityScoreSR pointsPct
    rw [h2, h3, h5, h6]
    norm_num [marginQualContrib, roeQualContrib, deQualContrib, currentRatioContrib]

/-- C5 witness: on the shipped benchmark table, Technology sector, and the
all-absent fundamentals record, both sector-relative sub-scores are exactly 50. -/
theorem absent_metrics_excluded_neutral_default_witness :
    valuationScoreSR SECTOR_BENCHMARKS allAbsentFund "Technology" = 50 ∧
    qualityScoreSR SECTOR_BENCHMARKS allAbsentFund "Technology" = 50 := by
  have h := absent_metrics_excluded_neutral_default SECTOR_BENCHMARKS "Technology"
    allAbsentFund 0 0 0 0 false rfl rfl rfl rfl rfl rfl
  exact ⟨h.2.2.2.2.2.2.2.2.2.1, h.2.2.2.2.2.2.2.2.2.2⟩

/-- C6: resolving an unknown market identifier raises immediately (first
conjunct, matching the claim); but no weight-sum validation exists at config
load or anywhere downstream: a sector benchmark whose weight triple sums to
2.7 is accepted and, fed three sub-scores of 100, yields a composite of 270
instead of having been rejected (second conjunct, contradicting the claim). -/
theorem config_error_handling (market : String)
    (h1 : market ≠ "US") (h2 : market ≠ "INDIA") (h3 : market ≠ "BOTH") :
    (∃ e, getMarketConfig market = Except.error e) ∧
    compositeScore unvalidatedBenchmarks 100 100 100 "X" = 270 := by
  constructor
  · exact ⟨_, by unfold getMarketConfig; rw [if_neg h1, if_neg h2, if_neg h3]⟩
  · simp only [compositeScore, unvalidatedBenchmarks, getSectorBenchmark,
      List.lookup_cons_self, benchWeights]
    norm_num

/-- C6 witness: a concrete unknown market is rejected with an error while the
non-summing weight triple still flows through the composite unrejected. -/
theorem config_error_handling_witness :
    (∃ e, getMarketConfig "EUROPE" = Except.error e) ∧
    compositeScore unvalidatedBenchmarks 100 100 100 "X" = 270 :=
  config_error_handling "EUROPE" (by decide) (by decide) (by decide)

/-- C7 counterexample: in the BOTH configuration the shared key
market_cap_min holds India's 500000000, silently overwriting the US value
100000000 — so a filter value sharing a key across the two markets IS
silently overwritten by the later market's table. -/
theorem bothConfig_overwrites_shared_key :
    ∃ c, getMarketConfig "BOTH" = Except.ok c ∧
      c.filters.lookup "market_cap_min" = some (FVal.num 500000000) ∧
      INDIA_FILTERS.lookup "market_cap_min" = some (FVal.num 500000000) ∧
      US_FILTERS.lookup "market_cap_min" = some (FVal.num 100000000) ∧
      FVal.num 500000000 ≠ FVal.num 100000000 := by
  refine ⟨_, rfl, rfl, rfl, rfl, ?_⟩
  intro h
  have : (500000000 : ℚ) = 100000000 := by injection h
  norm_num at this

/-- C7 (amended): the BOTH filter configuration is the key-wise union of the
two tables in which, on every one of the seventeen keys the tables share, the
value is India's (the later table silently overwrites the US value), while
keys unique to one table keep that table's value. -/
theorem bothConfig_india_wins_shared_keys :
    ∃ c, getMarketConfig "BOTH" = Except.ok c ∧
      c.filters.lookup "market_cap_min" = INDIA_FILTERS.lookup "market_cap_min" ∧
      c.filters.lookup "market_cap_max" = INDIA_FILTERS.lookup "market_cap_max" ∧
      c.filters.lookup "volume_min" = INDIA_FILTERS.lookup "volume_min" ∧
      c.filters.lookup "peg_ratio_max" = INDIA_FILTERS.lookup "peg_ratio_max" ∧
      c.filters.lookup "pe_ratio_max_fallback" = INDIA_FILTERS.lookup "pe_ratio_max_fallback" ∧
      c.filters.lookup "pe_ratio_min" = INDIA_FILTERS.lookup "pe_ratio_min" ∧
      c.filters.lookup "roe_min" = INDIA_FILTERS.lookup "roe_min" ∧
      c.filters.lookup "debt_to_equity_max" = INDIA_FILTERS.lookup "debt_to_equity_max" ∧
      c.filters.lookup "current_ratio_min" = INDIA_FILTERS.lookup "current_ratio_min" ∧
      c.filters.lookup "profit_margin_min" = INDIA_FILTERS.lookup "profit_margin_min" ∧
      c.filters.lookup "revenue_growth_min" = INDIA_FILTERS.lookup "revenue_growth_min" ∧
      c.filters.lookup "earnings_growth_min" = INDIA_FILTERS.lookup "earnings_growth_min" ∧
      c.filters.lookup "price_above_200ma" = INDIA_FILTERS.lookup "price_above_200ma" ∧
      c.filters.lookup "price_above_50ma" = INDIA_FILTERS.lookup "price_above_50ma" ∧
      c.filters.lookup "operating_margin_min" = INDIA_FILTERS.lookup "operating_margin_min" ∧
      c.filters.lookup "sectors_include" = INDIA_FILTERS.lookup "sectors_include" ∧
      c.filters.lookup "sectors_exclude" = INDIA_FILTERS.lookup "sectors_exclude" ∧
      c.filters.lookup "countries" = US_FILTERS.lookup "countries" ∧
      c.filters.lookup "exchanges" = INDIA_FILTERS.lookup "exchanges" ∧
      c.filters.lookup "indices_to_scan" = INDIA_FILTERS.lookup "indices_to_scan" :=
  ⟨_, rfl, rfl, rfl, rfl, rfl, rfl, rfl, rfl, rfl, rfl, rfl, rfl, rfl, rfl, rfl,
    rfl, rfl, rfl, rfl, rfl, rfl⟩

/-- C8: technical evaluation fails with the insufficient-data outcome exactly
when the price history has fewer than 50 bars; in particular 49 identical
bars yield no data while 50 yield a technical record. -/
theorem analyze_insufficient_data :
    (∀ hist : List Bar, analyze hist = none ↔ hist.length < 50) ∧
    analyze (List.replicate 49 {}) = none ∧
    (analyze (List.replicate 50 {})).isSome = true := by
  have h : ∀ hist : List Bar, analyze hist = none ↔ hist.length < 50 := by
    intro hist
    unfold analyze
    by_cases hc : hist.isEmpty ∨ hist.length < 50
    · rw [if_pos hc]
      rcases hc with hc | hc
      · simp [List.isEmpty_iff.mp hc]
      · simp [hc]
    · rw [if_neg hc]
      push_neg at hc
      simp [hc.2]
  refine ⟨h, (h _).mpr (by simp), ?_⟩
  rw [Option.isSome_iff_ne_none]
  intro hcon
  have := (h _).mp hcon
  simp at this

lemma rank_le_trans (key : String) : ∀ a b c : ScoredStock,
    (fun a b => decide (sGet b key ≤ sGet a key)) a b →
    (fun a b => decide (sGet b key ≤ sGet a key)) b c →
    (fun a b => decide (sGet b key ≤ sGet a key)) a c := by
  intro a b c hab hbc
  simp only [decide_eq_true_eq] at *
  exact le_trans hbc hab

lemma rank_le_total (key : String) : ∀ a b : ScoredStock,
    ((fun a b => decide (sGet b key ≤ sGet a key)) a b ||
     (fun a b => decide (sGet b key ≤ sGet a key)) b a) = true := by
  intro a b
  simp only [Bool.or_eq_true, decide_eq_true_eq]
  exact le_total (sGet b key) (sGet a key)

/-- C9 counterexample: with the empty requested action set, filter_by_action
replaces the falsy set with the default ["STRONG_BUY", "BUY"] and returns a
BUY record even though its tier is not in the requested set, so the output is
not the subsequence of records whose action tier is in the requested set. -/
theorem filterByAction_empty_set_not_requested :
    filterByAction [stockA] [] = [stockA] ∧
    List.filter (fun s => s.action ∈ ([] : List String)) [stockA] = [] ∧
    stockA.action ∉ ([] : List String) :=
  ⟨rfl, rfl, List.not_mem_nil _⟩

/-- C9 (amended): for every scored-stock list and every requested action set,
filter_by_action returns the order-preserving subsequence (a sublist of the
input) of records whose action tier lies in the effective set - the requested
set when nonempty, otherwise the default ["STRONG_BUY", "BUY"] that the code
substitutes for a falsy set; and rank_stocks returns a permutation of its
input that is sorted non-increasingly by the named field with equal-key
records kept in their input order. -/
theorem rank_and_filter_spec (stocks : List ScoredStock) (actions : List String)
    (key : String) :
    filterByAction stocks actions =
      stocks.filter (fun s =>
        s.action ∈ if actions.isEmpty then ["STRONG_BUY", "BUY"] else actions) ∧
    (filterByAction stocks actions).Sublist stocks ∧
    (rankStocks stocks key).Perm stocks ∧
    (rankStocks stocks key).Pairwise (fun a b => sGet b key ≤ sGet a key) ∧
    ∀ v : ℚ, (rankStocks stocks key).filter (fun s => sGet s key = v) =
      stocks.filter (fun s => sGet s key = v) := by
  refine ⟨rfl, List.filter_sublist stocks, List.mergeSort_perm stocks _, ?_, ?_⟩
  · have hs := @List.sorted_mergeSort ScoredStock
      (fun a b => decide (sGet b key ≤ sGet a key))
      (rank_le_trans key) (rank_le_total key) stocks
    exact hs.imp fun h => of_decide_eq_true h
  · intro v
    have hsubl : (stocks.filter (fun s => decide (sGet s key = v))).Sublist
        (rankStocks stocks key) := by
      apply List.sublist_mergeSort (rank_le_trans key) (rank_le_total key)
      · apply List.pairwise_of_forall_mem_list
        intro a ha b hb
        have hav : sGet a key = v := of_decide_eq_true (List.mem_filter.mp ha).2
        have hbv : sGet b key = v := of_decide_eq_true (List.mem_filter.mp hb).2
        simp [hav, hbv]
      · exact List.filter_sublist stocks
    have hsub2 : (stocks.filter (fun s => decide (sGet s key = v))).Sublist
        ((rankStocks stocks key).filter (fun s => decide (sGet s key = v))) := by
      simpa [List.filter_filter] using hsubl.filter (fun s => decide (sGet s key = v))
    have hperm : (List.filter (fun s => decide (sGet s key = v))
        (rankStocks stocks key)).Perm
        (List.filter (fun s => decide (sGet s key = v)) stocks) :=
      (List.mergeSort_perm stocks (fun a b => decide (sGet b key ≤ sGet a key))).filter
        (fun s => decide (sGet s key = v))
    exact (hsub2.eq_of_length hperm.length_eq.symm).symm

/-- C9 witness: on a concrete two-stock list the action filter keeps exactly
the BUY record both for the explicit request ["BUY"] and for the empty
request (through the substituted default), and ranking by composite score is
a permutation of the input. -/
theorem rank_and_filter_spec_witness :
    filterByAction [stockA, stockB] ["BUY"] = [stockA] ∧
    filterByAction [stockA, stockB] [] = [stockA] ∧
    (rankStocks [stockA, stockB] "composite_score").Perm [stockA, stockB] := by
  have h1 := rank_and_filter_spec [stockA, stockB] ["BUY"] "composite_score"
  have h2 := rank_and_filter_spec [stockA, stockB] [] "composite_score"
  refine ⟨?_, ?_, h1.2.2.1⟩
  · rw [h1.1]
    rfl
  · rw [h2.1]
    rfl

end StockPick
